import Mathlib

/-!
# Verification of the cuttlefish WiFi router daemon

A shallow embedding of `guest/commands/wifirouter/router.cc`: the
`MAC80211_HWSIM` packet router that multiplexes one kernel generic-netlink
channel against many client connections, keyed by (a hash of) MAC addresses.

Buffers are modelled as `List Nat` of byte values; machine integers are `Nat`
(with explicit two's-complement adjustments where C integer promotion and
sign extension matter), and client file descriptors are `Int`.
-/

namespace WifiRouter

/-! ## Byte-buffer primitives

Multi-byte header fields are read little-endian (host order on the platforms
the daemon runs on).  Reads beyond the end of the modelled buffer yield 0;
wherever the C code's behaviour actually depends on out-of-range memory, the
theorems quantify over an explicit junk suffix appended to the received bytes.
-/

/-- Read one byte (reads past the end give 0). -/
def readU8 (buf : List Nat) (i : Nat) : Nat := buf.getD i 0

/-- Read a 16-bit little-endian value at byte offset `i`. -/
def readU16 (buf : List Nat) (i : Nat) : Nat :=
  buf.getD i 0 + 256 * buf.getD (i + 1) 0

/-- Read a 32-bit little-endian value at byte offset `i`. -/
def readU32 (buf : List Nat) (i : Nat) : Nat :=
  buf.getD i 0 + 256 * buf.getD (i + 1) 0 + 65536 * buf.getD (i + 2) 0 +
    16777216 * buf.getD (i + 3) 0

/-! ## Protocol constants

`HWSIM_*` constants are copied out of `router.cc` itself.  `NLMSG_HDRLEN`,
`GENL_HDRLEN`, `NLA_HDRLEN` and `NLA_TYPE_MASK` are the standard netlink
layout constants used by the libnl calls in `router.cc`.
-/

def HWSIM_CMD_REGISTER : Nat := 1
def HWSIM_ATTR_ADDR_TRANSMITTER : Nat := 2
def HWSIM_ATTR_MAX : Nat := 19

def NLMSG_HDRLEN : Nat := 16
def GENL_HDRLEN : Nat := 4
def NLA_HDRLEN : Nat := 4
def NLA_TYPE_MASK : Nat := 0x3FFF

/-- Modelled from the spec: the enum values of the custom control protocol
live in `common/libs/wifi/router.h`, which is not among the sources; the spec
describes one meaningful client command (`REGISTER`), a notification command
for packet delivery, and two attributes (transmitter MAC, raw packet), which
we model as consecutive enum codes starting at 1 in declaration order. -/
def WIFIROUTER_CMD_REGISTER : Nat := 1

/-- Modelled from the spec: see `WIFIROUTER_CMD_REGISTER`. -/
def WIFIROUTER_CMD_NOTIFY : Nat := 2

/-- Modelled from the spec: see `WIFIROUTER_CMD_REGISTER`. -/
def WIFIROUTER_ATTR_MAC : Nat := 1

/-- Modelled from the spec: see `WIFIROUTER_CMD_REGISTER`. -/
def WIFIROUTER_ATTR_PACKET : Nat := 2

/-- Modelled from the spec: see `WIFIROUTER_CMD_REGISTER`. -/
def WIFIROUTER_ATTR_MAX : Nat := 3

/-- `EINVAL` as on Linux. -/
def EINVAL : Int := 22

/-! ## `GetMacHash`

```cpp
uint64_t GetMacHash(const void* macaddr) {
  auto typed = reinterpret_cast<const uint16_t*>(macaddr);
  return (1ull * typed[0] << 32) | (typed[1] << 16) | typed[2];
}
```

`typed[1]` is a `uint16_t` promoted to (32-bit signed) `int`; `typed[1] << 16`
therefore produces an `int` whose sign bit is set whenever `typed[1] ≥ 0x8000`,
and `(typed[1] << 16) | typed[2]` (still `int`) is then converted to
`unsigned long long` for the outer `|` by sign extension: the upper 32 bits of
the result are all ones in that case, absorbing the `typed[0]` contribution.
The model reproduces this bit-for-bit (little-endian 16-bit loads).
-/

/-- The three `uint16_t` loads `typed[0..2]` from the 6 MAC bytes. -/
def macWord (mac : List Nat) (i : Nat) : Nat :=
  mac.getD (2 * i) 0 + 256 * mac.getD (2 * i + 1) 0

/-- `GetMacHash` with C integer-promotion semantics. -/
def GetMacHash (mac : List Nat) : Nat :=
  let t0 := macWord mac 0
  let t1 := macWord mac 1
  let t2 := macWord mac 2
  -- (typed[1] << 16) | typed[2], a 32-bit signed int bit pattern
  let lower32 := (t1 <<< 16) ||| t2
  -- conversion of that int to unsigned long long: sign extension to 64 bits
  let lower64 := if lower32 < 2 ^ 31 then lower32 else 2 ^ 64 - 2 ^ 32 + lower32
  ((1 * t0) <<< 32) ||| lower64

/-! ## Registry model

`using MacToClientsTable = std::multimap<MacHash, int>` is modelled as a list
of `(hash, client)` pairs: the multiset of entries, with insertion order
among equal keys preserved (as `std::multimap` guarantees).
`using ClientsTable = std::set<int>` is modelled as a `List Int` with
set-insert/erase semantics.
-/

/-- One fan-out frame (`rep` in `RouteWIFIPacket`): command
`WIFIROUTER_CMD_NOTIFY` with a MAC attribute and a raw-packet attribute. -/
structure Frame where
  mac : List Nat
  packet : List Nat
deriving DecidableEq, Repr

/-- The mutable state owned by `ServerLoop`: the clients table and the
MAC-hash-to-clients multimap. -/
structure RouterState where
  clients : List Int
  targets : List (Nat × Int)
deriving DecidableEq, Repr

/-- `targets->emplace(key, client)`: a multimap insert, which always adds an
entry, duplicates included (equal keys keep insertion order). -/
def emplaceTarget (key : Nat) (client : Int) (targets : List (Nat × Int)) :
    List (Nat × Int) :=
  targets ++ [(key, client)]

/-- The clients iterated by
`for (it = targets->find(key); it != end && it->first == key; ++it)`:
every entry with the given key, with multiplicity, in insertion order. -/
def subscribersFor (targets : List (Nat × Int)) (key : Nat) : List Int :=
  (targets.filter (fun e => e.1 = key)).map (fun e => e.2)

/-- Number of occurrences of the `(key, client)` entry in the multimap. -/
def countPair (targets : List (Nat × Int)) (key : Nat) (client : Int) : Nat :=
  (targets.filter (fun e => e = (key, client))).length

/-- `RemoveClient`: erase the id from the clients set and delete every
multimap entry whose value is this client (the `close` syscall is I/O and
not modelled). -/
def removeClient (client : Int) (st : RouterState) : RouterState :=
  { clients := st.clients.filter (fun c => c ≠ client),
    targets := st.targets.filter (fun e => e.2 ≠ client) }

/-- `clients->insert(client)` in `AcceptNewClient`: set insert. -/
def insertClient (client : Int) (clients : List Int) : List Int :=
  if client ∈ clients then clients else client :: clients

/-! ## Attribute parsing (`nla_parse` as called by libnl)

`genlmsg_parse` (kernel path) and `nlmsg_parse` (client path) both check
`nlmsg_len ≥ NLMSG_HDRLEN + GENL_HDRLEN = 20` and then hand the byte range
`[20, nlmsg_len)` to `nla_parse` with a `NULL` policy.  `nla_parse` walks
attributes while `nla_ok` holds (`rem ≥ 4 ∧ nla_len ≥ 4 ∧ nla_len ≤ rem`),
storing `tb[nla_type & NLA_TYPE_MASK] = nla` for types within `maxtype`
(a later attribute of the same type overwrites an earlier one), advances by
`NLA_ALIGN(nla_len)`, and with a `NULL` policy always returns success.
Every offset below is an absolute byte offset into the same buffer the C
code indexes; the walk is bounded by the *declared* `nlmsg_len`, exactly as
in libnl — not by the number of bytes actually received.
-/

/-- `NLA_ALIGN`: round up to a multiple of 4. -/
def nlaAlign (n : Nat) : Nat := (n + 3) / 4 * 4

/-- The attribute walk of `nla_parse`: from absolute offset `pos` up to
`endPos`, collect `(type, (payloadOffset, payloadLen))`, most recent first so
that `List.lookup` returns the entry `tb[type]` would hold.  The walk is
written with a structural fuel so that it computes by kernel reduction; every
iteration advances `pos` by `nlaAlign nla_len ≥ 4`, so a fuel of `endPos`
strictly exceeds the number of iterations the guard `pos + 4 ≤ endPos` can
admit and the cutoff is never the reason the walk stops. -/
def nlaWalk (mem : List Nat) : (fuel : Nat) → (pos : Nat) →
    (endPos maxtype : Nat) → List (Nat × Nat × Nat) → List (Nat × Nat × Nat)
  | 0, _, _, _, acc => acc
  | fuel + 1, pos, endPos, maxtype, acc =>
    if pos + 4 ≤ endPos then
      let alen := readU16 mem pos
      let atype := readU16 mem (pos + 2) &&& NLA_TYPE_MASK
      if alen < 4 ∨ endPos - pos < alen then acc
      else
        let acc' := if atype ≤ maxtype then (atype, pos + 4, alen - 4) :: acc else acc
        nlaWalk mem fuel (pos + nlaAlign alen) endPos maxtype acc'
    else acc

/-- The attribute table produced for a message whose declared length is
`dlen`: `tb[atype]` after `nla_parse` over the byte range `[20, dlen)`. -/
def nlaLookup (mem : List Nat) (dlen maxtype atype : Nat) :
    Option (Nat × Nat) :=
  (nlaWalk mem dlen (NLMSG_HDRLEN + GENL_HDRLEN) dlen maxtype []).lookup atype

/-! ## `RouteWIFIPacket`

Split in two layers: `routeCore` is the fan-out logic that runs once the
transmitter-MAC attribute has been located (the body of the
`if (addr != nullptr)` block), and `RouteWIFIPacket` is the byte-level path
from the received netlink buffer down to `routeCore`.

`sendOk c` models whether `send(c, hdr, hdr->nlmsg_len, MSG_NOSIGNAL)` wrote
the whole frame; any other outcome (error or short write) flags the client
for removal.
-/

/-- Everything one call to the routing path produced: the subscribers a send
was attempted to (in iteration order), the fully delivered frames, the
clients passed to `RemoveClient`, and the state after those removals. -/
structure RouteResult where
  attempts : List Int
  sent : List (Int × Frame)
  removed : List Int
  state : RouterState
deriving DecidableEq, Repr

/-- The fan-out over subscribers of `key`: send to every entry with that key,
collect failed clients into `pending_removals` (a set: duplicates collapse),
and only after the iteration call `RemoveClient` on each once. -/
def routeCore (key : Nat) (macData raw : List Nat) (sendOk : Int → Bool)
    (st : RouterState) : RouteResult :=
  let subs := subscribersFor st.targets key
  let frame : Frame := ⟨macData, raw⟩
  let delivered := subs.filter (fun c => sendOk c)
  let failed := (subs.filter (fun c => ¬ sendOk c)).dedup
  { attempts := subs
    sent := delivered.map (fun c => (c, frame))
    removed := failed
    state := failed.foldl (fun s c => removeClient c s) st }

/-- Routing a kernel notification whose transmitter-MAC attribute holds the
6 bytes `mac` and whose raw received bytes are `raw`: the key is
`GetMacHash` of the attribute payload, the fan-out frame carries the payload
as the MAC attribute and `raw` as the packet attribute. -/
def routeNotification (mac raw : List Nat) (sendOk : Int → Bool)
    (st : RouterState) : RouteResult :=
  routeCore (GetMacHash mac) mac raw sendOk st

/-- A routing call that discards the message: nothing sent, nobody removed,
state untouched. -/
def routeNoop (st : RouterState) : RouteResult := ⟨[], [], [], st⟩

/-- Byte-level `RouteWIFIPacket` after `nl_recv` returned `len ≥ 0` bytes.
`mem` is the contents of the (page-sized) buffer `nl_recv` allocated: the
`len` received bytes followed by whatever the allocator left there — the code
itself never compares its reads against `len`, so fields beyond the received
bytes read junk from `mem`.  Steps, as in the source: discard unless
`nlmsg_type` equals the resolved `simfamily`; `genlmsg_parse` (fails only if
the declared `nlmsg_len < 20`); if `HWSIM_ATTR_ADDR_TRANSMITTER` is absent,
fall through without sending; otherwise build the reply from
`nla_len/nla_data` of that attribute plus the first `len` bytes of the
buffer, and fan out by `GetMacHash(nla_data(...))`. -/
def RouteWIFIPacket (simfamily : Nat) (mem : List Nat) (len : Nat)
    (sendOk : Int → Bool) (st : RouterState) : RouteResult :=
  if readU16 mem 4 ≠ simfamily then routeNoop st
  else
    let dlen := readU32 mem 0
    if dlen < NLMSG_HDRLEN + GENL_HDRLEN then routeNoop st
    else
      match nlaLookup mem dlen HWSIM_ATTR_MAX HWSIM_ATTR_ADDR_TRANSMITTER with
      | none => routeNoop st
      | some (off, alen) =>
          let macData := (mem.drop off).take alen
          let key := GetMacHash ((mem.drop off).take 6)
          routeCore key macData (mem.take len) sendOk st

/-! ## `HandleClientMessage`

Returns `false` (the caller `ServerLoop` then calls `RemoveClient`) when the
read is empty, the declared `nlmsg_len` differs from the bytes received, the
message is shorter than a `nlmsghdr`, or the final ack send fails.  Otherwise
the command byte is dispatched: for `WIFIROUTER_CMD_REGISTER`,
`nlmsg_parse` succeeds iff the declared length is at least 20, and if the
MAC attribute is present the `(GetMacHash(mac), client)` entry is emplaced
and the result becomes 0; every other path leaves the result at `-EINVAL`.
An ack echoing the request's `nlmsg_pid`/`nlmsg_seq` is then always sent.

For a received size in `[1, 3]` the C code compares `size` against an
`nlmsg_len` read from uninitialised malloc memory, and for size exactly 16 it
reads the command byte one past the message: in both situations every
possible junk value leads to the same outcome (rejection, resp. a `-EINVAL`
ack), which is the outcome the model produces.
-/

/-- The `nlmsgerr` ack frame: `nlmsg_put(rsp, msg->nlmsg_pid, msg->nlmsg_seq,
NLMSG_ERROR, 0, 0)` plus an `nlmsgerr` whose `error` field is `result`. -/
structure Ack where
  pid : Nat
  seq : Nat
  result : Int
deriving DecidableEq, Repr

/-- Outcome of `HandleClientMessage`: the updated multimap, the ack frame
attempted (`none` when the message was rejected before any ack), and the
return value (`false` means the caller removes the client). -/
structure HandleResult where
  targets : List (Nat × Int)
  ack : Option Ack
  keep : Bool
deriving DecidableEq, Repr

/-- The MAC attribute of a client `REGISTER` request, as
`nlmsg_parse` + `attrs[WIFIROUTER_ATTR_MAC]` find it:
`none` when the attribute section fails to parse (declared length below the
minimal header) or the attribute is absent. -/
def clientMacAttr (buf : List Nat) : Option (Nat × Nat) :=
  if readU32 buf 0 < NLMSG_HDRLEN + GENL_HDRLEN then none
  else nlaLookup buf (readU32 buf 0) (WIFIROUTER_ATTR_MAX - 1) WIFIROUTER_ATTR_MAC

/-- `HandleClientMessage` on the received bytes `buf` (`size = buf.length`),
with `ackSendOk` modelling whether the ack send writes the whole frame. -/
def HandleClientMessage (client : Int) (buf : List Nat)
    (targets : List (Nat × Int)) (ackSendOk : Bool) : HandleResult :=
  let size := buf.length
  if size = 0 ∨ size ≠ readU32 buf 0 ∨ size < NLMSG_HDRLEN then
    ⟨targets, none, false⟩
  else
    let cmd := readU8 buf NLMSG_HDRLEN
    let reg :=
      if cmd = WIFIROUTER_CMD_REGISTER then
        match clientMacAttr buf with
        | some (off, _) =>
            (emplaceTarget (GetMacHash ((buf.drop off).take 6)) client targets,
              (0 : Int))
        | none => (targets, -EINVAL)
      else (targets, -EINVAL)
    ⟨reg.1, some ⟨readU32 buf 12, readU32 buf 8, reg.2⟩, ackSendOk⟩

/-- The per-client step of `ServerLoop`: run `HandleClientMessage` and, on a
`false` return, `RemoveClient`. -/
def serverHandleClient (client : Int) (buf : List Nat) (ackSendOk : Bool)
    (st : RouterState) : RouterState × Option Ack :=
  let r := HandleClientMessage client buf st.targets ackSendOk
  let st' : RouterState := { st with targets := r.targets }
  if r.keep then (st', r.ack) else (removeClient client st', r.ack)

/-! ## Registry lemmas -/

theorem mem_subscribersFor {t : List (Nat × Int)} {k : Nat} {c : Int} :
    c ∈ subscribersFor t k ↔ (k, c) ∈ t := by
  simp only [subscribersFor, List.mem_map, List.mem_filter, decide_eq_true_eq]
  constructor
  · rintro ⟨⟨k', c'⟩, ⟨hmem, hk⟩, hc⟩
    simp only at hk hc
    rw [← hk, ← hc]
    exact hmem
  · intro h
    exact ⟨(k, c), ⟨h, rfl⟩, rfl⟩

theorem not_mem_subscribersFor_of_countPair_eq_zero {t : List (Nat × Int)}
    {k : Nat} {c : Int} (h : countPair t k c = 0) : c ∉ subscribersFor t k := by
  intro hmem
  have hpair : (k, c) ∈ t := mem_subscribersFor.mp hmem
  have : (k, c) ∈ t.filter (fun e => e = (k, c)) :=
    List.mem_filter.mpr ⟨hpair, by simp⟩
  have hlen : 0 < (t.filter (fun e => e = (k, c))).length :=
    List.length_pos.mpr (fun hnil => by rw [hnil] at this; exact (List.not_mem_nil _ this))
  rw [countPair] at h
  omega

theorem subscribersFor_emplace (t : List (Nat × Int)) (k : Nat) (c : Int) :
    subscribersFor (emplaceTarget k c t) k = subscribersFor t k ++ [c] := by
  simp [subscribersFor, emplaceTarget, List.filter_append]

theorem countPair_emplace (t : List (Nat × Int)) (k : Nat) (c : Int) :
    countPair (emplaceTarget k c t) k c = countPair t k c + 1 := by
  simp [countPair, emplaceTarget, List.filter_append]

theorem subscribersFor_removeClient (t : List (Nat × Int)) (k : Nat) (c : Int) :
    subscribersFor (t.filter (fun e => e.2 ≠ c)) k
      = (subscribersFor t k).filter (fun x => x ≠ c) := by
  induction t with
  | nil => rfl
  | cons e t ih =>
    by_cases h1 : e.2 = c <;> by_cases h2 : e.1 = k <;>
      simp [subscribersFor, List.filter_cons, h1, h2] at ih ⊢ <;>
      simp [ih]

theorem removeClient_clients_not_mem (c : Int) (st : RouterState) :
    c ∉ (removeClient c st).clients := by
  intro hmem
  have := (List.mem_filter.mp hmem).2
  simp at this

theorem removeClient_targets_ne (c : Int) (st : RouterState) :
    ∀ e ∈ (removeClient c st).targets, e.2 ≠ c := by
  intro e he
  have := (List.mem_filter.mp he).2
  simpa using this

theorem removeClient_idem (c : Int) (st : RouterState) :
    removeClient c (removeClient c st) = removeClient c st := by
  simp only [removeClient, RouterState.mk.injEq]
  constructor <;>
    exact List.filter_eq_self.mpr (fun a ha => (List.mem_filter.mp ha).2)

/-- Subscribers that precede the appended tail and are distinct from `c`
contribute nothing to the fan-out frames addressed to `c`. -/
theorem sentFilter_append (l tail : List Int) (sendOk : Int → Bool) (f : Frame)
    (c : Int) (hc : c ∉ l) :
    (((l ++ tail).filter (fun x => sendOk x)).map (fun x => (x, f))).filter
        (fun y => y.1 = c)
      = ((tail.filter (fun x => sendOk x)).map (fun x => (x, f))).filter
          (fun y => y.1 = c) := by
  induction l with
  | nil => rfl
  | cons a l ih =>
    have hac : a ≠ c := fun h => hc (h ▸ List.mem_cons_self a l)
    have hc' : c ∉ l := fun h => hc (List.mem_cons_of_mem a h)
    by_cases hs : sendOk a <;>
      simp [List.filter_cons, hs, hac, ih hc'] <;>
      (intro a' b' x hx hsend hxa hfb hac'
       exact hc' ((hxa.trans hac') ▸ hx))

/-! ## Claim theorems -/

/-- C10: `GetMacHash` is not injective on 6-byte MAC addresses: when the
second 16-bit word has its high bit set, the int-promoted `typed[1] << 16`
is sign-extended to 64 bits before the bitwise OR, so the upper 32 bits of
the result are all ones and the contribution of `typed[0]` is absorbed — two
MACs differing only in their first two bytes then collide. -/
theorem getMacHash_collision :
    ∃ m1 m2 : List Nat, m1.length = 6 ∧ m2.length = 6 ∧
      (∀ b ∈ m1, b < 256) ∧ (∀ b ∈ m2, b < 256) ∧ m1 ≠ m2 ∧
      GetMacHash m1 = GetMacHash m2 :=
  ⟨[0, 0, 0, 128, 0, 0], [1, 0, 0, 128, 0, 0],
    by decide, by decide, by decide, by decide, by decide, by decide⟩

/-- C1: after registering MAC `M` for client `C` (the `targets->emplace` of
`HandleClientMessage`, starting from a state in which `C` is not yet
subscribed under `GetMacHash M`), routing one kernel notification whose
transmitter-MAC attribute is `M` and whose raw bytes are `raw` delivers
exactly one fan-out frame to `C`, and that frame carries `M` as the MAC
attribute and `raw`, unchanged, as the packet attribute. -/
theorem register_then_route_delivers_once (M raw : List Nat) (C : Int)
    (sendOk : Int → Bool) (st : RouterState)
    (h0 : countPair st.targets (GetMacHash M) C = 0) (h1 : sendOk C = true) :
    ((routeNotification M raw sendOk
        { st with targets := emplaceTarget (GetMacHash M) C st.targets }).sent.filter
      (fun y => y.1 = C)) = [(C, (⟨M, raw⟩ : Frame))] := by
  have hC : C ∉ subscribersFor st.targets (GetMacHash M) :=
    not_mem_subscribersFor_of_countPair_eq_zero h0
  simp only [routeNotification, routeCore]
  rw [subscribersFor_emplace]
  rw [sentFilter_append _ [C] sendOk _ C hC]
  simp [List.filter_cons, h1]

/-- C1 witness: a concrete registration of `AA:BB:CC:DD:EE:FF` by client 7
on an empty table, then routing a notification with that transmitter MAC and
payload `[1, 2, 3]`. -/
theorem register_then_route_delivers_once_w :
    ((routeNotification [0xAA, 0xBB, 0xCC, 0xDD, 0xEE, 0xFF] [1, 2, 3]
        (fun _ => true)
        { clients := [7],
          targets := emplaceTarget
            (GetMacHash [0xAA, 0xBB, 0xCC, 0xDD, 0xEE, 0xFF]) 7 [] }).sent.filter
      (fun y => y.1 = 7))
      = [(7, (⟨[0xAA, 0xBB, 0xCC, 0xDD, 0xEE, 0xFF], [1, 2, 3]⟩ : Frame))] :=
  register_then_route_delivers_once [0xAA, 0xBB, 0xCC, 0xDD, 0xEE, 0xFF]
    [1, 2, 3] 7 (fun _ => true) ⟨[7], []⟩ (by decide) rfl

/-- C2 fails as stated: subscriber selection is by `GetMacHash` key, which is
not injective (C10), so a client registered only for a different MAC `M2 ≠ M`
can still receive the notification for `M`.  Here clients 1 and 2 register
`00:00:00:80:00:00` and client 3 registers only `01:00:00:80:00:00`
(a distinct MAC with the same hash), yet routing a notification for the
former delivers the frame to client 3 as well. -/
theorem route_fanout_reaches_colliding_mac :
    ([0, 0, 0, 128, 0, 0] : List Nat) ≠ [1, 0, 0, 128, 0, 0] ∧
    (∀ e ∈ emplaceTarget (GetMacHash [1, 0, 0, 128, 0, 0]) 3
        (emplaceTarget (GetMacHash [0, 0, 0, 128, 0, 0]) 2
          (emplaceTarget (GetMacHash [0, 0, 0, 128, 0, 0]) 1 [])),
      e.2 = 3 → e.1 = GetMacHash [1, 0, 0, 128, 0, 0]) ∧
    ((3 : Int), (⟨[0, 0, 0, 128, 0, 0], [9, 9]⟩ : Frame)) ∈
      (routeNotification [0, 0, 0, 128, 0, 0] [9, 9] (fun _ => true)
        { clients := [1, 2, 3],
          targets := emplaceTarget (GetMacHash [1, 0, 0, 128, 0, 0]) 3
            (emplaceTarget (GetMacHash [0, 0, 0, 128, 0, 0]) 2
              (emplaceTarget (GetMacHash [0, 0, 0, 128, 0, 0]) 1 [])) }).sent := by
  refine ⟨by decide, by decide, by decide⟩

/-- C2 (amended): a single notification for `M` is delivered to both clients
registered for `M`, and to no client `C3` all of whose registrations are for
a MAC `M2` whose `GetMacHash` key differs from that of `M` — delivery
selects subscribers by equality of `GetMacHash` keys, not of raw MACs. -/
theorem route_fanout_selects_by_hash (M M2 raw : List Nat) (C1 C2 C3 : Int)
    (sendOk : Int → Bool) (st : RouterState)
    (hC1 : (GetMacHash M, C1) ∈ st.targets) (h1 : sendOk C1 = true)
    (hC2 : (GetMacHash M, C2) ∈ st.targets) (h2 : sendOk C2 = true)
    (hC3 : ∀ e ∈ st.targets, e.2 = C3 → e.1 = GetMacHash M2)
    (hh : GetMacHash M2 ≠ GetMacHash M) :
    (C1, (⟨M, raw⟩ : Frame)) ∈ (routeNotification M raw sendOk st).sent ∧
    (C2, (⟨M, raw⟩ : Frame)) ∈ (routeNotification M raw sendOk st).sent ∧
    ∀ f : Frame, (C3, f) ∉ (routeNotification M raw sendOk st).sent := by
  simp only [routeNotification, routeCore]
  refine ⟨?_, ?_, ?_⟩
  · exact List.mem_map.mpr ⟨C1,
      List.mem_filter.mpr ⟨mem_subscribersFor.mpr hC1, h1⟩, rfl⟩
  · exact List.mem_map.mpr ⟨C2,
      List.mem_filter.mpr ⟨mem_subscribersFor.mpr hC2, h2⟩, rfl⟩
  · intro f hmem
    obtain ⟨x, hx, hxf⟩ := List.mem_map.mp hmem
    have hx3 : x = C3 := congrArg Prod.fst hxf
    have hsub : x ∈ subscribersFor st.targets (GetMacHash M) :=
      (List.mem_filter.mp hx).1
    rw [hx3] at hsub
    exact hh ((hC3 _ (mem_subscribersFor.mp hsub) rfl).symm)

/-- C2 (amended) witness: clients 1 and 2 register `AA:BB:CC:DD:EE:FF`,
client 3 registers `01:02:03:04:05:06` (whose hash differs); the
notification reaches 1 and 2 and never 3. -/
theorem route_fanout_selects_by_hash_w :
    ((1 : Int), (⟨[0xAA, 0xBB, 0xCC, 0xDD, 0xEE, 0xFF], [5]⟩ : Frame)) ∈
      (routeNotification [0xAA, 0xBB, 0xCC, 0xDD, 0xEE, 0xFF] [5]
        (fun _ => true)
        { clients := [1, 2, 3],
          targets := [(GetMacHash [0xAA, 0xBB, 0xCC, 0xDD, 0xEE, 0xFF], 1),
            (GetMacHash [0xAA, 0xBB, 0xCC, 0xDD, 0xEE, 0xFF], 2),
            (GetMacHash [1, 2, 3, 4, 5, 6], 3)] }).sent ∧
    ((2 : Int), (⟨[0xAA, 0xBB, 0xCC, 0xDD, 0xEE, 0xFF], [5]⟩ : Frame)) ∈
      (routeNotification [0xAA, 0xBB, 0xCC, 0xDD, 0xEE, 0xFF] [5]
        (fun _ => true)
        { clients := [1, 2, 3],
          targets := [(GetMacHash [0xAA, 0xBB, 0xCC, 0xDD, 0xEE, 0xFF], 1),
            (GetMacHash [0xAA, 0xBB, 0xCC, 0xDD, 0xEE, 0xFF], 2),
            (GetMacHash [1, 2, 3, 4, 5, 6], 3)] }).sent ∧
    ∀ f : Frame, ((3 : Int), f) ∉
      (routeNotification [0xAA, 0xBB, 0xCC, 0xDD, 0xEE, 0xFF] [5]
        (fun _ => true)
        { clients := [1, 2, 3],
          targets := [(GetMacHash [0xAA, 0xBB, 0xCC, 0xDD, 0xEE, 0xFF], 1),
            (GetMacHash [0xAA, 0xBB, 0xCC, 0xDD, 0xEE, 0xFF], 2),
            (GetMacHash [1, 2, 3, 4, 5, 6], 3)] }).sent :=
  route_fanout_selects_by_hash [0xAA, 0xBB, 0xCC, 0xDD, 0xEE, 0xFF]
    [1, 2, 3, 4, 5, 6] [5] 1 2 3 (fun _ => true)
    ⟨[1, 2, 3], [(GetMacHash [0xAA, 0xBB, 0xCC, 0xDD, 0xEE, 0xFF], 1),
      (GetMacHash [0xAA, 0xBB, 0xCC, 0xDD, 0xEE, 0xFF], 2),
      (GetMacHash [1, 2, 3, 4, 5, 6], 3)]⟩
    (by decide) rfl (by decide) rfl (by decide) (by decide)

/-- C3 fails as stated: `targets` is a `std::multimap` and `emplace` always
inserts, so a second `REGISTER` of the same MAC by the same client adds a
second `(hash, client)` entry (the index is changed) and a subsequent
notification for that MAC is fanned out to the client twice. -/
theorem duplicate_register_not_noop :
    emplaceTarget (GetMacHash [0xAA, 0xBB, 0xCC, 0xDD, 0xEE, 0xFF]) 1
        (emplaceTarget (GetMacHash [0xAA, 0xBB, 0xCC, 0xDD, 0xEE, 0xFF]) 1 []) ≠
      emplaceTarget (GetMacHash [0xAA, 0xBB, 0xCC, 0xDD, 0xEE, 0xFF]) 1 [] ∧
    ((routeNotification [0xAA, 0xBB, 0xCC, 0xDD, 0xEE, 0xFF] [1, 2, 3]
        (fun _ => true)
        { clients := [1],
          targets := emplaceTarget
            (GetMacHash [0xAA, 0xBB, 0xCC, 0xDD, 0xEE, 0xFF]) 1
            (emplaceTarget
              (GetMacHash [0xAA, 0xBB, 0xCC, 0xDD, 0xEE, 0xFF]) 1 []) }).sent.filter
      (fun y => y.1 = 1)).length = 2 := by
  refine ⟨by decide, by decide⟩

/-- C3 (amended): each `REGISTER` unconditionally inserts a `(hash, client)`
entry into the multimap — a second `REGISTER` of the same MAC by the same
client (starting from no such entry) leaves the pair with multiplicity two,
and a subsequent notification for that MAC delivers the fan-out frame to
that client exactly twice, once per entry. -/
theorem duplicate_register_duplicates_fanout (M raw : List Nat) (C : Int)
    (sendOk : Int → Bool) (st : RouterState)
    (h0 : countPair st.targets (GetMacHash M) C = 0) (h1 : sendOk C = true) :
    countPair (emplaceTarget (GetMacHash M) C
        (emplaceTarget (GetMacHash M) C st.targets)) (GetMacHash M) C = 2 ∧
    ((routeNotification M raw sendOk
        { st with targets := (emplaceTarget (GetMacHash M) C
          (emplaceTarget (GetMacHash M) C st.targets)) }).sent.filter
      (fun y => y.1 = C)) = [(C, (⟨M, raw⟩ : Frame)), (C, (⟨M, raw⟩ : Frame))] := by
  have hC : C ∉ subscribersFor st.targets (GetMacHash M) :=
    not_mem_subscribersFor_of_countPair_eq_zero h0
  constructor
  · rw [countPair_emplace, countPair_emplace, h0]
  · simp only [routeNotification, routeCore]
    rw [subscribersFor_emplace, subscribersFor_emplace, List.append_assoc]
    rw [sentFilter_append _ ([C] ++ [C]) sendOk _ C hC]
    simp [List.filter_cons, h1]

/-- C3 (amended) witness: registering `AA:BB:CC:DD:EE:FF` twice for client 1
on an empty table yields the pair twice and a double delivery. -/
theorem duplicate_register_duplicates_fanout_w :
    countPair (emplaceTarget (GetMacHash [0xAA, 0xBB, 0xCC, 0xDD, 0xEE, 0xFF]) 1
        (emplaceTarget (GetMacHash [0xAA, 0xBB, 0xCC, 0xDD, 0xEE, 0xFF]) 1 []))
      (GetMacHash [0xAA, 0xBB, 0xCC, 0xDD, 0xEE, 0xFF]) 1 = 2 ∧
    ((routeNotification [0xAA, 0xBB, 0xCC, 0xDD, 0xEE, 0xFF] [4, 5]
        (fun _ => true)
        { clients := [1],
          targets := emplaceTarget
            (GetMacHash [0xAA, 0xBB, 0xCC, 0xDD, 0xEE, 0xFF]) 1
            (emplaceTarget
              (GetMacHash [0xAA, 0xBB, 0xCC, 0xDD, 0xEE, 0xFF]) 1 []) }).sent.filter
      (fun y => y.1 = 1))
      = [(1, (⟨[0xAA, 0xBB, 0xCC, 0xDD, 0xEE, 0xFF], [4, 5]⟩ : Frame)),
         (1, (⟨[0xAA, 0xBB, 0xCC, 0xDD, 0xEE, 0xFF], [4, 5]⟩ : Frame))] :=
  duplicate_register_duplicates_fanout [0xAA, 0xBB, 0xCC, 0xDD, 0xEE, 0xFF]
    [4, 5] 1 (fun _ => true) ⟨[1], []⟩ (by decide) rfl

/-- C5: with exactly `C1` and `C2` subscribed to `M` and delivery to `C1`
failing (short write) while delivery to `C2` succeeds: every subscriber of
the pre-routing snapshot is attempted (removals are never interleaved with
the iteration), `C2` receives the frame, `C1` is passed to `RemoveClient`
exactly once and ends up in neither the client set nor any subscription
entry, and a subsequent notification for `M` is delivered only to `C2`. -/
theorem route_failure_isolation (M raw raw2 : List Nat) (C1 C2 : Int)
    (sendOk : Int → Bool) (st : RouterState)
    (hsubs : subscribersFor st.targets (GetMacHash M) = [C1, C2])
    (hne : C1 ≠ C2) (h1 : sendOk C1 = false) (h2 : sendOk C2 = true) :
    (routeNotification M raw sendOk st).attempts = [C1, C2] ∧
    (routeNotification M raw sendOk st).sent = [(C2, (⟨M, raw⟩ : Frame))] ∧
    (routeNotification M raw sendOk st).removed = [C1] ∧
    C1 ∉ (routeNotification M raw sendOk st).state.clients ∧
    (∀ e ∈ (routeNotification M raw sendOk st).state.targets, e.2 ≠ C1) ∧
    (routeNotification M raw2 sendOk
        (routeNotification M raw sendOk st).state).sent
      = [(C2, (⟨M, raw2⟩ : Frame))] := by
  have hstate : (routeNotification M raw sendOk st).state = removeClient C1 st := by
    simp [routeNotification, routeCore, hsubs, List.filter_cons, h1, h2]
  refine ⟨?_, ?_, ?_, ?_, ?_, ?_⟩
  · simp [routeNotification, routeCore, hsubs]
  · simp [routeNotification, routeCore, hsubs, List.filter_cons, h1, h2]
  · simp [routeNotification, routeCore, hsubs, List.filter_cons, h1, h2]
  · rw [hstate]
    exact removeClient_clients_not_mem C1 st
  · rw [hstate]
    exact removeClient_targets_ne C1 st
  · rw [hstate]
    have hsubs' : subscribersFor (removeClient C1 st).targets (GetMacHash M)
        = [C2] := by
      show subscribersFor (st.targets.filter (fun e => e.2 ≠ C1)) (GetMacHash M)
        = [C2]
      rw [subscribersFor_removeClient, hsubs]
      simp [List.filter_cons, hne.symm]
    simp [routeNotification, routeCore, hsubs', List.filter_cons, h2]

/-- C5 witness: clients 1 (failing) and 2 (succeeding) both subscribed to
`AA:BB:CC:DD:EE:FF`. -/
theorem route_failure_isolation_w :
    (routeNotification [0xAA, 0xBB, 0xCC, 0xDD, 0xEE, 0xFF] [7]
        (fun c => c ≠ 1)
        { clients := [1, 2],
          targets := [(GetMacHash [0xAA, 0xBB, 0xCC, 0xDD, 0xEE, 0xFF], 1),
            (GetMacHash [0xAA, 0xBB, 0xCC, 0xDD, 0xEE, 0xFF], 2)] }).attempts
      = [1, 2] ∧
    (routeNotification [0xAA, 0xBB, 0xCC, 0xDD, 0xEE, 0xFF] [7]
        (fun c => c ≠ 1)
        { clients := [1, 2],
          targets := [(GetMacHash [0xAA, 0xBB, 0xCC, 0xDD, 0xEE, 0xFF], 1),
            (GetMacHash [0xAA, 0xBB, 0xCC, 0xDD, 0xEE, 0xFF], 2)] }).sent
      = [(2, (⟨[0xAA, 0xBB, 0xCC, 0xDD, 0xEE, 0xFF], [7]⟩ : Frame))] ∧
    (routeNotification [0xAA, 0xBB, 0xCC, 0xDD, 0xEE, 0xFF] [7]
        (fun c => c ≠ 1)
        { clients := [1, 2],
          targets := [(GetMacHash [0xAA, 0xBB, 0xCC, 0xDD, 0xEE, 0xFF], 1),
            (GetMacHash [0xAA, 0xBB, 0xCC, 0xDD, 0xEE, 0xFF], 2)] }).removed
      = [1] ∧
    (1 : Int) ∉ (routeNotification [0xAA, 0xBB, 0xCC, 0xDD, 0xEE, 0xFF] [7]
        (fun c => c ≠ 1)
        { clients := [1, 2],
          targets := [(GetMacHash [0xAA, 0xBB, 0xCC, 0xDD, 0xEE, 0xFF], 1),
            (GetMacHash [0xAA, 0xBB, 0xCC, 0xDD, 0xEE, 0xFF], 2)] }).state.clients ∧
    (∀ e ∈ (routeNotification [0xAA, 0xBB, 0xCC, 0xDD, 0xEE, 0xFF] [7]
        (fun c => c ≠ 1)
        { clients := [1, 2],
          targets := [(GetMacHash [0xAA, 0xBB, 0xCC, 0xDD, 0xEE, 0xFF], 1),
            (GetMacHash [0xAA, 0xBB, 0xCC, 0xDD, 0xEE, 0xFF], 2)] }).state.targets,
      e.2 ≠ 1) ∧
    (routeNotification [0xAA, 0xBB, 0xCC, 0xDD, 0xEE, 0xFF] [8]
        (fun c => c ≠ 1)
        (routeNotification [0xAA, 0xBB, 0xCC, 0xDD, 0xEE, 0xFF] [7]
          (fun c => c ≠ 1)
          { clients := [1, 2],
            targets := [(GetMacHash [0xAA, 0xBB, 0xCC, 0xDD, 0xEE, 0xFF], 1),
              (GetMacHash [0xAA, 0xBB, 0xCC, 0xDD, 0xEE, 0xFF], 2)] }).state).sent
      = [(2, (⟨[0xAA, 0xBB, 0xCC, 0xDD, 0xEE, 0xFF], [8]⟩ : Frame))] :=
  route_failure_isolation [0xAA, 0xBB, 0xCC, 0xDD, 0xEE, 0xFF] [7] [8] 1 2
    (fun c => c ≠ 1)
    ⟨[1, 2], [(GetMacHash [0xAA, 0xBB, 0xCC, 0xDD, 0xEE, 0xFF], 1),
      (GetMacHash [0xAA, 0xBB, 0xCC, 0xDD, 0xEE, 0xFF], 2)]⟩
    (by decide) (by decide) (by decide) (by decide)

/-- C4: `RemoveClient` purges the id from the client set and from every
subscription entry, and is idempotent — a second call (or a call for an id
that was never added or never registered) is a harmless no-op. -/
theorem removeClient_purges_and_idempotent (c : Int) (st : RouterState) :
    c ∉ (removeClient c st).clients ∧
    (∀ e ∈ (removeClient c st).targets, e.2 ≠ c) ∧
    removeClient c (removeClient c st) = removeClient c st := by
  refine ⟨?_, ?_, ?_⟩
  · intro hmem
    have := (List.mem_filter.mp hmem).2
    simp at this
  · intro e he
    have := (List.mem_filter.mp he).2
    simpa using this
  · simp only [removeClient, RouterState.mk.injEq]
    constructor <;>
      exact List.filter_eq_self.mpr (fun a ha => (List.mem_filter.mp ha).2)

/-- C6: a well-framed `REGISTER` request (declared length matching the bytes
received, at least a full `nlmsghdr`) is acked with a frame echoing the
request's `nlmsg_pid` and `nlmsg_seq`, whose signed result is 0 exactly when
the request carries a present, parsable MAC attribute and `-EINVAL`
otherwise. -/
theorem register_ack_correlation (client : Int) (buf : List Nat)
    (targets : List (Nat × Int)) (ok : Bool) (p s : Nat)
    (hframe : buf.length = readU32 buf 0) (hmin : NLMSG_HDRLEN ≤ buf.length)
    (hcmd : readU8 buf NLMSG_HDRLEN = WIFIROUTER_CMD_REGISTER)
    (hpid : readU32 buf 12 = p) (hseq : readU32 buf 8 = s) :
    (HandleClientMessage client buf targets ok).ack =
      some ⟨p, s, if (clientMacAttr buf).isSome then 0 else -EINVAL⟩ := by
  have h0 : buf.length ≠ 0 := by
    have : (16 : Nat) ≤ buf.length := hmin
    omega
  simp only [HandleClientMessage]
  rw [if_neg (by push_neg; exact ⟨h0, hframe, hmin⟩)]
  rcases h : clientMacAttr buf with _ | ⟨off, alen⟩ <;>
    simp [hcmd, h, hpid, hseq]

/-- C6 witness: a concrete `REGISTER` frame with pid 7, seq 42 and a 6-byte
MAC attribute, acked with result 0. -/
theorem register_ack_correlation_w :
    (HandleClientMessage 5
        [30, 0, 0, 0, 0, 0, 0, 0, 42, 0, 0, 0, 7, 0, 0, 0, 1, 0, 0, 0,
          10, 0, 1, 0, 0xAA, 0xBB, 0xCC, 0xDD, 0xEE, 0xFF] [] true).ack
      = some ⟨7, 42, 0⟩ :=
  (register_ack_correlation 5
    [30, 0, 0, 0, 0, 0, 0, 0, 42, 0, 0, 0, 7, 0, 0, 0, 1, 0, 0, 0,
      10, 0, 1, 0, 0xAA, 0xBB, 0xCC, 0xDD, 0xEE, 0xFF] [] true 7 42
    (by decide) (by decide) (by decide) (by decide) (by decide)).trans (by decide)

/-- C7 fails as stated for parse failures: a well-framed message (declared
length 17 matching the 17 bytes received, command `REGISTER`) whose
attribute section fails to parse (`nlmsg_parse` rejects a declared length
below 20) is *not* treated like a disconnect — `HandleClientMessage`
returns `true` (the client is kept) and an ack with result `-EINVAL` is
sent to it. -/
theorem parse_failure_acked_and_kept :
    (HandleClientMessage 4
        [17, 0, 0, 0, 0, 0, 0, 0, 0, 0, 0, 0, 0, 0, 0, 0, 1] [] true).keep
      = true ∧
    (HandleClientMessage 4
        [17, 0, 0, 0, 0, 0, 0, 0, 0, 0, 0, 0, 0, 0, 0, 0, 1] [] true).ack
      = some ⟨0, 0, -22⟩ := by
  refine ⟨by decide, by decide⟩

/-- C7 (amended): a client message whose declared length does not match the
bytes received is treated exactly like a disconnect — rejected with no ack
and a `false` return, so `ServerLoop` removes the client; a *well-framed*
`REGISTER` message whose attribute section fails to parse is instead sent an
ack with result `-EINVAL` and kept (it is removed only if that ack send
itself fails). -/
theorem length_mismatch_disconnects_parse_failure_acked (client : Int)
    (buf : List Nat) (targets : List (Nat × Int)) (ok : Bool) :
    (buf.length ≠ readU32 buf 0 →
      HandleClientMessage client buf targets ok = ⟨targets, none, false⟩) ∧
    (buf.length = readU32 buf 0 → NLMSG_HDRLEN ≤ buf.length →
      readU8 buf NLMSG_HDRLEN = WIFIROUTER_CMD_REGISTER →
      readU32 buf 0 < NLMSG_HDRLEN + GENL_HDRLEN →
      HandleClientMessage client buf targets ok =
        ⟨targets, some ⟨readU32 buf 12, readU32 buf 8, -EINVAL⟩, ok⟩) := by
  constructor
  · intro h
    simp only [HandleClientMessage]
    rw [if_pos (Or.inr (Or.inl h))]
  · intro hframe hmin hcmd hshort
    have h0 : buf.length ≠ 0 := by
      have : (16 : Nat) ≤ buf.length := hmin
      omega
    have hmac : clientMacAttr buf = none := by
      simp only [clientMacAttr]
      rw [if_pos hshort]
    simp only [HandleClientMessage]
    rw [if_neg (by push_neg; exact ⟨h0, hframe, hmin⟩)]
    simp [hcmd, hmac]

/-- C7 (amended) witness: `[9, 9]` declares length 2313 but is 2 bytes, so
the client is dropped with no ack; a 19-byte well-framed `REGISTER` whose
declared length 19 is below the minimal parsable header gets a `-EINVAL`
ack and stays connected. -/
theorem length_mismatch_disconnects_parse_failure_acked_w :
    HandleClientMessage 4 [9, 9] [] true = ⟨[], none, false⟩ ∧
    HandleClientMessage 4
        [19, 0, 0, 0, 0, 0, 0, 0, 1, 0, 0, 0, 2, 0, 0, 0, 1, 0, 0] [] true
      = ⟨[], some ⟨2, 1, -22⟩, true⟩ :=
  ⟨(length_mismatch_disconnects_parse_failure_acked 4 [9, 9] [] true).1
      (by decide),
    ((length_mismatch_disconnects_parse_failure_acked 4
        [19, 0, 0, 0, 0, 0, 0, 0, 1, 0, 0, 0, 2, 0, 0, 0, 1, 0, 0] [] true).2
      (by decide) (by decide) (by decide) (by decide)).trans (by decide)⟩

/-- C8 fails as stated for the kernel-notification path: `RouteWIFIPacket`
bounds-checks its attribute walk only against the *declared* `nlmsg_len`,
never against the bytes actually received.  Here only 15 bytes (one less
than a `nlmsghdr`) are received, but the header declares length 36 and the
21 allocator-junk bytes that follow happen to form a genl header and a
transmitter-MAC attribute: the decoder reads past the received bytes,
produces a parsed value, and routes a frame — not a rejection. -/
theorem truncated_kernel_buffer_can_route :
    (RouteWIFIPacket 30
        [36, 0, 0, 0, 30, 0, 0, 0, 0, 0, 0, 0, 0, 0, 0,
          0, 0, 0, 0, 0, 10, 0, 2, 0, 1, 2, 3, 4, 5, 6, 0, 0, 4, 0, 0, 0]
        15 (fun _ => true)
        { clients := [1], targets := [(GetMacHash [1, 2, 3, 4, 5, 6], 1)] }).sent
      = [(1, (⟨[1, 2, 3, 4, 5, 6],
          [36, 0, 0, 0, 30, 0, 0, 0, 0, 0, 0, 0, 0, 0, 0]⟩ : Frame))] := by
  decide

/-- C8 (amended): the client-request decode path does satisfy the claim —
for every received buffer shorter than a `nlmsghdr`, `HandleClientMessage`
rejects it outright (no targets change, no ack, client dropped), whatever
the byte contents. -/
theorem truncated_client_message_rejected (client : Int) (buf : List Nat)
    (targets : List (Nat × Int)) (ok : Bool) (h : buf.length < NLMSG_HDRLEN) :
    HandleClientMessage client buf targets ok = ⟨targets, none, false⟩ := by
  simp only [HandleClientMessage]
  rw [if_pos (Or.inr (Or.inr h))]

/-- C8 (amended) witness: a 3-byte client message is rejected. -/
theorem truncated_client_message_rejected_w :
    HandleClientMessage 9 [1, 2, 3] [] true = ⟨[], none, false⟩ :=
  truncated_client_message_rejected 9 [1, 2, 3] [] true (by decide)

/-- C9: a kernel message whose netlink type differs from the resolved
simulated-radio family id, or that carries no transmitter-MAC attribute, is
silently discarded: no send is attempted, no frame is delivered, nobody is
removed, and the client set and subscription index are left unchanged. -/
theorem route_discards_foreign_or_macless (fam : Nat) (mem : List Nat)
    (len : Nat) (sendOk : Int → Bool) (st : RouterState)
    (h : readU16 mem 4 ≠ fam ∨
      nlaLookup mem (readU32 mem 0) HWSIM_ATTR_MAX HWSIM_ATTR_ADDR_TRANSMITTER
        = none) :
    RouteWIFIPacket fam mem len sendOk st = routeNoop st := by
  simp only [RouteWIFIPacket]
  by_cases ht : readU16 mem 4 ≠ fam
  · rw [if_pos ht]
  · rw [if_neg ht]
    rcases h with h | h
    · exact absurd h ht
    · by_cases hd : readU32 mem 0 < NLMSG_HDRLEN + GENL_HDRLEN
      · rw [if_pos hd]
      · rw [if_neg hd, h]

/-- C9 witness: a message of type 5 arriving while the resolved family id is
99 is discarded. -/
theorem route_discards_foreign_or_macless_w :
    RouteWIFIPacket 99 [0, 0, 0, 0, 5, 0] 6 (fun _ => true) ⟨[4], []⟩
      = routeNoop ⟨[4], []⟩ :=
  route_discards_foreign_or_macless 99 [0, 0, 0, 0, 5, 0] 6 (fun _ => true)
    ⟨[4], []⟩ (Or.inl (by decide))

end WifiRouter
